import Mathlib

/-!
# Verification of the GenAI observability SDK core

A shallow embedding, in Lean 4, of the instrumentation core of the
`genai-observability-suite` Node.js SDK: the configuration state
(`src/sdk/nodejs/src/config.ts`), the redaction engine (`redaction.ts`),
the cost calculator (`cost.ts`) and the span lifecycle wrappers
(`instrumentation.ts`).

Modelling conventions:
* JavaScript numbers are modelled as rationals (`ℚ`); the claims checked
  here never exercise binary floating-point rounding at an observable
  boundary.
* A JavaScript plain object used as a string-keyed dictionary is modelled
  as an insertion-ordered association list `List (String × α)`:
  `jsRecordGet` is property lookup, `jsRecordSet` is property assignment
  (overwrite in place, or append for a fresh key).  `Object.entries`
  iteration order for such objects is insertion order, which the
  association-list order reproduces.
* A JavaScript `RegExp` is an external primitive (the host regex engine);
  it is modelled by its observable behaviour under
  `String.prototype.replace` with a constant replacement string
  (structure `JsRegExp`).
* Thrown errors are modelled by `Except`: a wrapped callable is given by
  its outcome value `Except JsError α`.
-/

/-- Lookup of a property in a JS string-keyed object. -/
def jsRecordGet {α : Type} : List (String × α) → String → Option α
  | [], _ => none
  | (k, v) :: rest, key => if k = key then some v else jsRecordGet rest key

/-- Property assignment `obj[key] = v` on a JS string-keyed object:
overwrites in place if the key exists, otherwise appends (new keys go to
the end of the iteration order). -/
def jsRecordSet {α : Type} : List (String × α) → String → α → List (String × α)
  | [], key, v => [(key, v)]
  | (k, w) :: rest, key, v =>
      if k = key then (k, v) :: rest else (k, w) :: jsRecordSet rest key v

/-- `s.toLowerCase()` on the ASCII strings that occur here: lower-case
each character. -/
def jsToLower (s : String) : String := ⟨s.toList.map Char.toLower⟩

/-- The whitespace characters relevant to `String.prototype.trim` in the
strings that occur here. -/
def jsWhitespace (c : Char) : Bool := c = ' ' || c = '\t' || c = '\n' || c = '\r'

/-- `s.trim()`: strip leading and trailing whitespace. -/
def jsTrim (s : String) : String :=
  ⟨((s.toList.dropWhile jsWhitespace).reverse.dropWhile jsWhitespace).reverse⟩

/-- `s.substring(0, n)` for a possibly negative `n` (negative is clamped
to `0`, as in JavaScript): keep the first `n` characters. -/
def jsSubstringTo (s : String) (n : Int) : String := ⟨s.toList.take n.toNat⟩

/-- `a.includes(b)`: `b` occurs as a contiguous substring of `a`. -/
def jsIncludes (a b : String) : Bool := decide (b.toList <:+: a.toList)

/-! ## Configuration state (`config.ts`) -/

/-- The `GenAIConfig` interface of `config.ts`.  `otlpProtocol` is the
string union `'grpc' | 'http'`, kept as a `String`. -/
structure GenAIConfig where
  serviceName : String
  environment : String
  otlpEndpoint : String
  otlpProtocol : String
  logPrompts : Bool
  sampleRate : ℚ
  redactPatterns : List String
  tenantId : Option String
  userId : Option String
  maxAttributeLength : Int
  deriving Repr, DecidableEq

/-- `Partial<GenAIConfig>`: every field optional; an absent field leaves
the current value untouched by the spread merge. -/
structure PartialGenAIConfig where
  serviceName : Option String := none
  environment : Option String := none
  otlpEndpoint : Option String := none
  otlpProtocol : Option String := none
  logPrompts : Option Bool := none
  sampleRate : Option ℚ := none
  redactPatterns : Option (List String) := none
  tenantId : Option (Option String) := none
  userId : Option (Option String) := none
  maxAttributeLength : Option Int := none
  deriving Repr

/-- The shallow merge `{ ...config, ...newConfig }`. -/
def mergeConfig (cfg : GenAIConfig) (p : PartialGenAIConfig) : GenAIConfig where
  serviceName := p.serviceName.getD cfg.serviceName
  environment := p.environment.getD cfg.environment
  otlpEndpoint := p.otlpEndpoint.getD cfg.otlpEndpoint
  otlpProtocol := p.otlpProtocol.getD cfg.otlpProtocol
  logPrompts := p.logPrompts.getD cfg.logPrompts
  sampleRate := p.sampleRate.getD cfg.sampleRate
  redactPatterns := p.redactPatterns.getD cfg.redactPatterns
  tenantId := p.tenantId.getD cfg.tenantId
  userId := p.userId.getD cfg.userId
  maxAttributeLength := p.maxAttributeLength.getD cfg.maxAttributeLength

/-- `defaultConfig` of `config.ts`, with every `process.env` variable
unset, so each `||` / `parseFloat` / `parseInt` fallback applies. -/
def defaultConfig : GenAIConfig where
  serviceName := "genai-app"
  environment := "dev"
  otlpEndpoint := "http://localhost:4317"
  otlpProtocol := "grpc"
  logPrompts := false
  sampleRate := 1 / 100
  redactPatterns := ["email", "ssn", "api_key", "credit_card"]
  tenantId := none
  userId := none
  maxAttributeLength := 2000

/-- `setConfig` of `config.ts`.  The source first executes
`config = { ...config, ...newConfig }` and only then validates, throwing
`Error('sampleRate must be between 0 and 1')` or
`Error('maxAttributeLength must be at least 100')`; the assignment is not
rolled back on the throw.  The model therefore returns the merged record
as the new stored state together with the error message, if any. -/
def setConfig (cfg : GenAIConfig) (p : PartialGenAIConfig) :
    GenAIConfig × Option String :=
  let c := mergeConfig cfg p
  if c.sampleRate < 0 ∨ c.sampleRate > 1 then
    (c, some "sampleRate must be between 0 and 1")
  else if c.maxAttributeLength < 100 then
    (c, some "maxAttributeLength must be at least 100")
  else
    (c, none)

/-- The configuration states observable via `getConfig()`: the initial
state and everything a sequence of `setConfig` calls (succeeding or
throwing) can produce. -/
inductive ReachableConfig : GenAIConfig → Prop
  | init : ReachableConfig defaultConfig
  | step (cfg : GenAIConfig) (p : PartialGenAIConfig) :
      ReachableConfig cfg → ReachableConfig (setConfig cfg p).1

/-- `x || 'default'` on an optional string: `undefined` and the empty
string (both falsy) fall back to the default. -/
def jsOrString (o : Option String) (d : String) : String :=
  match o with
  | some s => if s = "" then d else s
  | none => d

/-! ## Redaction engine (`redaction.ts`) -/

/-- A JavaScript `RegExp` with the global flag, modelled by its observable
behaviour: `replaceIn text replacement` is `text.replace(re, replacement)`,
replacing every match with the (constant) replacement string.  The regex
engine itself belongs to the host runtime, outside this repository. -/
structure JsRegExp where
  replaceIn : String → String → String

/-- The mutable module state of `redaction.ts`: the `PATTERNS` and
`REPLACEMENTS` records.  The built-in entries (email, ssn, …) are regexes
of the host engine; no claim checked here evaluates a built-in matcher, so
the registry is kept as an arbitrary state threaded through the model. -/
structure RedactionRegistry where
  PATTERNS : List (String × JsRegExp)
  REPLACEMENTS : List (String × String)

/-- The loop body of `redactSensitiveData`: one entry of the configured
pattern list applied to the current text.  The name is trimmed and
lower-cased, an unregistered name is skipped, and
`REPLACEMENTS[name] || '[REDACTED]'` falls back on a missing (or empty,
hence falsy) replacement string. -/
def applyPattern (reg : RedactionRegistry) (redacted : String)
    (patternName : String) : String :=
  let name := jsToLower (jsTrim patternName)
  match jsRecordGet reg.PATTERNS name with
  | some pat =>
      let replacement :=
        match jsRecordGet reg.REPLACEMENTS name with
        | some r => if r = "" then "[REDACTED]" else r
        | none => "[REDACTED]"
      pat.replaceIn redacted replacement
  | none => redacted

/-- `redactSensitiveData(text, config)`: fold `applyPattern` over
`config.redactPatterns` in list order; each pattern is applied to the
text already redacted by the earlier ones. -/
def redactSensitiveData (reg : RedactionRegistry) (text : String)
    (config : GenAIConfig) : String :=
  config.redactPatterns.foldl (applyPattern reg) text

/-- Replace every occurrence of the (non-empty) literal `lit` in a
character list by `rep`, scanning left to right without re-scanning
replaced text — the behaviour of `text.replace(re, rep)` for a global
regex matching exactly the literal `lit`. -/
def replaceAllLit (lit rep : List Char) : List Char → List Char
  | [] => []
  | c :: rest =>
      if lit ≠ [] ∧ lit.isPrefixOf (c :: rest) then
        rep ++ replaceAllLit lit rep (rest.drop (lit.length - 1))
      else
        c :: replaceAllLit lit rep rest
termination_by l => l.length
decreasing_by
  · simp only [List.length_drop, List.length_cons]
    omega
  · simp

/-- The `JsRegExp` of a global regex matching one literal string — the
kind of synthetic pattern used below to exercise the redaction engine. -/
def literalRegExp (lit : String) : JsRegExp :=
  ⟨fun t r => ⟨replaceAllLit lit.toList r.toList t.toList⟩⟩

/-- `addRedactionPattern(name, pattern, replacement = '[REDACTED]')`:
stores the pattern and replacement under `name` as given (the key is not
normalized at registration time). -/
def addRedactionPattern (reg : RedactionRegistry) (name : String)
    (pat : JsRegExp) (replacement : String := "[REDACTED]") :
    RedactionRegistry where
  PATTERNS := jsRecordSet reg.PATTERNS name pat
  REPLACEMENTS := jsRecordSet reg.REPLACEMENTS name replacement

/-! ## Cost calculator (`cost.ts`) -/

/-- Per-million-token prices of one model (`ModelPricing`). -/
structure ModelPricing where
  input : ℚ
  output : ℚ
  deriving Repr, DecidableEq

/-- One provider's model table (`ProviderPricing`). -/
def ProviderPricing : Type := List (String × ModelPricing)

/-- The built-in `PRICING_TABLE`, in source order (which is the iteration
order of `Object.entries`). -/
def PRICING_TABLE : List (String × ProviderPricing) :=
  [("openai",
    [("gpt-4-turbo", ⟨10.0, 30.0⟩),
     ("gpt-4", ⟨30.0, 60.0⟩),
     ("gpt-3.5-turbo", ⟨0.5, 1.5⟩),
     ("text-embedding-3-small", ⟨0.02, 0.0⟩),
     ("text-embedding-3-large", ⟨0.13, 0.0⟩),
     ("text-embedding-ada-002", ⟨0.1, 0.0⟩)]),
   ("anthropic",
    [("claude-3-opus-20240229", ⟨15.0, 75.0⟩),
     ("claude-3-sonnet-20240229", ⟨3.0, 15.0⟩),
     ("claude-3-haiku-20240307", ⟨0.25, 1.25⟩),
     ("claude-3-5-sonnet-20241022", ⟨3.0, 15.0⟩)]),
   ("cohere",
    [("command-r-plus", ⟨3.0, 15.0⟩),
     ("command-r", ⟨0.5, 1.5⟩),
     ("embed-english-v3.0", ⟨0.1, 0.0⟩),
     ("rerank-english-v3.0", ⟨2.0, 0.0⟩)]),
   ("together",
    [("meta-llama/Llama-3-70b", ⟨0.9, 0.9⟩),
     ("meta-llama/Llama-3-8b", ⟨0.2, 0.2⟩),
     ("mistralai/Mixtral-8x7B-Instruct-v0.1", ⟨0.6, 0.6⟩)])]

/-- The `CostCalculator` class state: its `pricing` field. -/
structure CostCalculator where
  pricing : List (String × ProviderPricing)

/-- `new CostCalculator()` without custom pricing: a copy of the built-in
table. -/
def CostCalculator.new : CostCalculator := ⟨PRICING_TABLE⟩

/-- `normalizeModelName`: trim, then lower-case. -/
def normalizeModelName (model : String) : String := jsToLower (jsTrim model)

/-- `(x).toFixed(8)` followed by `parseFloat`: round to 8 decimal places.
`Mathlib`'s `round` (nearest, half up) stands in for the decimal rounding
of `toFixed`; no value in this development sits on a tie at the eighth
decimal. -/
def round8 (q : ℚ) : ℚ := (round (q * 100000000) : ℚ) / 100000000

/-- Steps 1–4 of `calculateCost`: resolve `(provider, model)` to a pricing
entry.  Provider lower-cased; model normalized; exact lookup first, then
the first substring match (`knownModel.includes(modelNormalized) ||
modelNormalized.includes(knownModel)`) in table iteration order. -/
def CostCalculator.lookupModelPricing (c : CostCalculator)
    (provider model : String) : Option ModelPricing :=
  let providerLower := jsToLower provider
  let modelNormalized := normalizeModelName model
  match jsRecordGet c.pricing providerLower with
  | none => none
  | some table =>
      match jsRecordGet table modelNormalized with
      | some p => some p
      | none =>
          (table.find? (fun kv =>
            jsIncludes kv.1 modelNormalized || jsIncludes modelNormalized kv.1)).map
            (fun kv => kv.2)

/-- `calculateCost(provider, model, inputTokens, outputTokens = 0)`. -/
def CostCalculator.calculateCost (c : CostCalculator) (provider model : String)
    (inputTokens : ℚ) (outputTokens : ℚ := 0) : ℚ :=
  match c.lookupModelPricing provider model with
  | none => 0
  | some p =>
      round8 (inputTokens / 1000000 * p.input + outputTokens / 1000000 * p.output)

/-- `addCustomPricing(provider, model, inputPricePer1M, outputPricePer1M = 0)`:
creates the provider's table if absent and stores the entry under the model
name as given (the model key is not normalized at registration time). -/
def CostCalculator.addCustomPricing (c : CostCalculator) (provider model : String)
    (inputPricePer1M : ℚ) (outputPricePer1M : ℚ := 0) : CostCalculator :=
  let providerLower := jsToLower provider
  let table := (jsRecordGet c.pricing providerLower).getD []
  ⟨jsRecordSet c.pricing providerLower
    (jsRecordSet table model ⟨inputPricePer1M, outputPricePer1M⟩)⟩

/-! ## Span lifecycle wrappers (`instrumentation.ts`)

Each `traceX(options)` decorator produces an instrumented method.  One
invocation of the instrumented method is modelled as a pure function of:
the configuration read at call start, the global cost calculator and
redaction registry, the decorator options, the measured wall-clock
duration, and the wrapped callable's outcome (`Except JsError α`, where
`JsError` carries the thrown error's constructor name and message).  The
function returns the value propagated to the caller together with the
span record the invocation produced.  The span's attribute list collects
the `setAttribute`/`setAttributes` calls in program order; `endCount`
counts `span.end()` calls — the `finally` block runs once on every exit
path, so every branch ends the span through `endSpan` exactly once. -/

/-- A thrown JavaScript error, by its observable fields:
`error.constructor.name` and `error.message`. -/
structure JsError where
  type : String
  message : String
  deriving Repr, DecidableEq

/-- A span attribute value. -/
inductive AttrValue where
  | str (s : String)
  | num (q : ℚ)
  | bool (b : Bool)
  deriving Repr, DecidableEq

/-- Span status as set by `span.setStatus`. -/
inductive SpanStatus where
  | ok
  | error (message : String)
  deriving Repr, DecidableEq

/-- The observable record of one span. -/
structure SpanRecord where
  attrs : List (String × AttrValue)
  status : SpanStatus
  endCount : Nat
  deriving Repr, DecidableEq

/-- `span.end()`. -/
def endSpan (s : SpanRecord) : SpanRecord := { s with endCount := s.endCount + 1 }

/-- A conditional `span.setAttribute` call: the singleton segment when
the guard is truthy, nothing otherwise. -/
def optAttr (c : Bool) (k : String) (v : AttrValue) : List (String × AttrValue) :=
  if c then [(k, v)] else []

/-- The attribute writes of every `catch` block: `error`, `error.type`
(the constructor name) and `error.message` truncated by
`substring(0, 200)`. -/
def errorAttrs (e : JsError) : List (String × AttrValue) :=
  [("error", .bool true),
   ("error.type", .str e.type),
   ("error.message", .str (jsSubstringTo e.message 200))]

/-- `EmbedOptions`. -/
structure EmbedOptions where
  model : String
  provider : Option String := none
  batchSize : Option ℚ := none
  dimensions : Option ℚ := none

/-- The fields of an embed result the wrapper inspects:
`result?.usage?.total_tokens` (absent when either level is missing). -/
structure EmbedResult where
  usage_total_tokens : Option ℚ := none
  deriving Repr, DecidableEq

/-- One invocation of a `traceEmbed`-instrumented method. -/
def traceEmbed (cfg : GenAIConfig) (cc : CostCalculator) (opts : EmbedOptions)
    (durationMs : ℚ) (outcome : Except JsError EmbedResult) :
    Except JsError EmbedResult × SpanRecord :=
  let staticAttrs : List (String × AttrValue) :=
    [("gen_ai.operation.name", .str "embed"),
     ("gen_ai.request.model", .str opts.model),
     ("gen_ai.request.provider", .str (jsOrString opts.provider "openai")),
     ("gen_ai.environment", .str cfg.environment)]
    ++ optAttr (opts.batchSize.getD 0 ≠ 0) "gen_ai.request.batch_size"
         (.num (opts.batchSize.getD 0))
    ++ optAttr (opts.dimensions.getD 0 ≠ 0) "gen_ai.response.dimensions"
         (.num (opts.dimensions.getD 0))
  match outcome with
  | .error e =>
      (.error e, endSpan { attrs := staticAttrs ++ errorAttrs e,
                           status := .error e.message, endCount := 0 })
  | .ok r =>
      let usageAttrs : List (String × AttrValue) :=
        match r.usage_total_tokens with
        | some t =>
            if t ≠ 0 then
              let cost := cc.calculateCost (jsOrString opts.provider "openai") opts.model t
              [("gen_ai.usage.input_tokens", .num t)]
              ++ optAttr (cost > 0) "gen_ai.usage.cost_usd" (.num cost)
            else []
        | none => []
      (.ok r, endSpan { attrs := staticAttrs ++ usageAttrs
                          ++ [("gen_ai.request.duration_ms", .num durationMs)],
                        status := .ok, endCount := 0 })

/-- `RetrieveOptions`; `filters` stands for the already-serialized
`JSON.stringify(options.filters)` when `options.filters` is present. -/
structure RetrieveOptions where
  source : String
  topK : ℚ
  indexName : Option String := none
  filters : Option String := none

/-- The shape of a retrieve result as the wrapper sees it: `some n` when
`Array.isArray(result)` with `n` its length. -/
structure RetrieveResult where
  arrayLength : Option Nat := none
  deriving Repr, DecidableEq

/-- One invocation of a `traceRetrieve`-instrumented method. -/
def traceRetrieve (cfg : GenAIConfig) (opts : RetrieveOptions)
    (durationMs : ℚ) (outcome : Except JsError RetrieveResult) :
    Except JsError RetrieveResult × SpanRecord :=
  let staticAttrs : List (String × AttrValue) :=
    [("gen_ai.operation.name", .str "retrieve"),
     ("gen_ai.retrieval.top_k", .num opts.topK),
     ("gen_ai.retrieval.source", .str opts.source),
     ("gen_ai.environment", .str cfg.environment)]
    ++ optAttr (opts.indexName.getD "" ≠ "") "gen_ai.retrieval.index_name"
         (.str (opts.indexName.getD ""))
    ++ optAttr opts.filters.isSome "gen_ai.retrieval.filters"
         (.str (jsSubstringTo (opts.filters.getD "") cfg.maxAttributeLength))
  match outcome with
  | .error e =>
      (.error e, endSpan { attrs := staticAttrs ++ errorAttrs e,
                           status := .error e.message, endCount := 0 })
  | .ok r =>
      let resultsCount : Nat := r.arrayLength.getD 0
      (.ok r, endSpan { attrs := staticAttrs
                          ++ [("gen_ai.retrieval.results_count", .num resultsCount),
                              ("gen_ai.retrieval.hit_at_k",
                                .num (if resultsCount > 0 then 1 else 0)),
                              ("gen_ai.request.duration_ms", .num durationMs)],
                        status := .ok, endCount := 0 })

/-- `RerankOptions`. -/
structure RerankOptions where
  model : String
  provider : Option String := none
  inputCount : Option ℚ := none
  topN : Option ℚ := none

/-- The shape of a rerank result: `some n` when it is an array of
length `n`. -/
structure RerankResult where
  arrayLength : Option Nat := none
  deriving Repr, DecidableEq

/-- One invocation of a `traceRerank`-instrumented method. -/
def traceRerank (cfg : GenAIConfig) (opts : RerankOptions)
    (durationMs : ℚ) (outcome : Except JsError RerankResult) :
    Except JsError RerankResult × SpanRecord :=
  let staticAttrs : List (String × AttrValue) :=
    [("gen_ai.operation.name", .str "rerank"),
     ("gen_ai.rerank.model", .str opts.model),
     ("gen_ai.environment", .str cfg.environment)]
    ++ optAttr (opts.inputCount.getD 0 ≠ 0) "gen_ai.rerank.input_count"
         (.num (opts.inputCount.getD 0))
    ++ optAttr (opts.topN.getD 0 ≠ 0) "gen_ai.rerank.top_n"
         (.num (opts.topN.getD 0))
  match outcome with
  | .error e =>
      (.error e, endSpan { attrs := staticAttrs ++ errorAttrs e,
                           status := .error e.message, endCount := 0 })
  | .ok r =>
      (.ok r, endSpan { attrs := staticAttrs
                          ++ [("gen_ai.rerank.output_count", .num (r.arrayLength.getD 0)),
                              ("gen_ai.request.duration_ms", .num durationMs)],
                        status := .ok, endCount := 0 })

/-- `GenerateOptions`. -/
structure GenerateOptions where
  model : String
  provider : Option String := none
  temperature : Option ℚ := none
  maxTokens : Option ℚ := none
  streaming : Option Bool := none

/-- `result.usage` of a generate result. -/
structure GenerateUsage where
  prompt_tokens : Option ℚ := none
  completion_tokens : Option ℚ := none
  total_tokens : Option ℚ := none
  deriving Repr, DecidableEq

/-- The fields of a generate result the wrapper inspects: `result.usage`,
`result?.choices?.[0]?.finish_reason` and
`result?.choices?.[0]?.message?.content`. -/
structure GenerateResult where
  usage : Option GenerateUsage := none
  finish_reason : Option String := none
  message_content : Option String := none
  deriving Repr, DecidableEq

/-- One invocation of a `traceGenerate`-instrumented method.  `args` are
the call arguments, each element standing for its `String(·)` conversion. -/
def traceGenerate (cfg : GenAIConfig) (reg : RedactionRegistry) (cc : CostCalculator)
    (opts : GenerateOptions) (args : List String) (durationMs : ℚ)
    (outcome : Except JsError GenerateResult) :
    Except JsError GenerateResult × SpanRecord :=
  let provider := jsOrString opts.provider "openai"
  let staticAttrs : List (String × AttrValue) :=
    [("gen_ai.operation.name", .str "generate"),
     ("gen_ai.request.model", .str opts.model),
     ("gen_ai.request.provider", .str provider),
     ("gen_ai.environment", .str cfg.environment)]
    ++ optAttr opts.temperature.isSome "gen_ai.request.temperature"
         (.num (opts.temperature.getD 0))
    ++ optAttr (opts.maxTokens.getD 0 ≠ 0) "gen_ai.request.max_tokens"
         (.num (opts.maxTokens.getD 0))
    ++ optAttr (opts.streaming.getD false) "gen_ai.request.streaming"
         (.bool (opts.streaming.getD false))
  let promptAttrs : List (String × AttrValue) :=
    optAttr (cfg.logPrompts && !args.isEmpty) "gen_ai.prompt"
      (.str (redactSensitiveData reg
        (jsSubstringTo (args.headD "") cfg.maxAttributeLength) cfg))
  match outcome with
  | .error e =>
      (.error e, endSpan { attrs := staticAttrs ++ promptAttrs ++ errorAttrs e,
                           status := .error e.message, endCount := 0 })
  | .ok r =>
      let usageAttrs : List (String × AttrValue) :=
        match r.usage with
        | some u =>
            let inputTokens := u.prompt_tokens.getD 0
            let outputTokens := u.completion_tokens.getD 0
            let cost := cc.calculateCost provider opts.model inputTokens outputTokens
            [("gen_ai.usage.input_tokens", .num inputTokens),
             ("gen_ai.usage.output_tokens", .num outputTokens),
             ("gen_ai.usage.total_tokens", .num (u.total_tokens.getD 0))]
            ++ optAttr (cost > 0) "gen_ai.usage.cost_usd" (.num cost)
        | none => []
      let finishAttrs : List (String × AttrValue) :=
        optAttr (r.finish_reason.getD "" ≠ "") "gen_ai.response.finish_reason"
          (.str (r.finish_reason.getD ""))
      let completionAttrs : List (String × AttrValue) :=
        optAttr (cfg.logPrompts && r.message_content.getD "" ≠ "") "gen_ai.completion"
          (.str (redactSensitiveData reg
            (jsSubstringTo (r.message_content.getD "") cfg.maxAttributeLength) cfg))
      (.ok r, endSpan { attrs := staticAttrs ++ promptAttrs ++ usageAttrs
                          ++ finishAttrs ++ completionAttrs
                          ++ [("gen_ai.request.duration_ms", .num durationMs)],
                        status := .ok, endCount := 0 })

/-- `ToolCallOptions`; `parameters` stands for the serialized
`JSON.stringify(options.parameters)` when present. -/
structure ToolCallOptions where
  toolName : String
  parameters : Option String := none

/-- A tool-call result, by its serialization `JSON.stringify(result)`. -/
structure ToolCallResult where
  serialized : String
  deriving Repr, DecidableEq

/-- One invocation of a `traceToolCall`-instrumented method.  The
`finally` block writes `gen_ai.tool.result_status` (and, after a catch,
`gen_ai.tool.error_type`) before ending the span. -/
def traceToolCall (cfg : GenAIConfig) (reg : RedactionRegistry) (opts : ToolCallOptions)
    (durationMs : ℚ) (outcome : Except JsError ToolCallResult) :
    Except JsError ToolCallResult × SpanRecord :=
  let staticAttrs : List (String × AttrValue) :=
    [("gen_ai.operation.name", .str "tool_call"),
     ("gen_ai.tool.name", .str opts.toolName),
     ("gen_ai.environment", .str cfg.environment)]
    ++ optAttr opts.parameters.isSome "gen_ai.tool.parameters"
         (.str (redactSensitiveData reg
           (jsSubstringTo (opts.parameters.getD "") cfg.maxAttributeLength) cfg))
  match outcome with
  | .error e =>
      (.error e, endSpan { attrs := staticAttrs ++ errorAttrs e
                             ++ [("gen_ai.tool.result_status", .str "error")]
                             ++ optAttr (e.type ≠ "") "gen_ai.tool.error_type" (.str e.type),
                           status := .error e.message, endCount := 0 })
  | .ok r =>
      (.ok r, endSpan { attrs := staticAttrs
                          ++ [("gen_ai.tool.result_size_bytes", .num r.serialized.utf8ByteSize),
                              ("gen_ai.request.duration_ms", .num durationMs),
                              ("gen_ai.tool.result_status", .str "success")],
                        status := .ok, endCount := 0 })

/-! ## General lemmas -/

theorem jsRecordGet_set_same {α : Type} (l : List (String × α)) (k : String) (v : α) :
    jsRecordGet (jsRecordSet l k v) k = some v := by
  induction l with
  | nil => simp [jsRecordGet, jsRecordSet]
  | cons hd tl ih =>
      by_cases h : hd.1 = k <;> simp [jsRecordGet, jsRecordSet, h, ih]

theorem jsRecordGet_set_ne {α : Type} (l : List (String × α)) (k k' : String) (v : α)
    (h : k' ≠ k) : jsRecordGet (jsRecordSet l k v) k' = jsRecordGet l k' := by
  induction l with
  | nil => simp [jsRecordGet, jsRecordSet, Ne.symm h]
  | cons hd tl ih =>
      by_cases hk : hd.1 = k <;>
        by_cases hk' : hd.1 = k' <;>
          simp_all [jsRecordGet, jsRecordSet]

theorem foldl_congr_mem {α β : Type} (f g : α → β → α) (l : List β)
    (h : ∀ b ∈ l, ∀ a, f a b = g a b) :
    ∀ init : α, l.foldl f init = l.foldl g init := by
  induction l with
  | nil => intro init; rfl
  | cons hd tl ih =>
      intro init
      simp only [List.foldl_cons]
      rw [h hd (by simp)]
      exact ih (fun b hb a => h b (by simp [hb]) a) _

/-! ## Configuration claims -/

/-- C1: the claim says a rejected `setConfig` leaves the prior
configuration observable via `getConfig()`.  The code violates it:
`setConfig({sampleRate: 1.5})` from the default configuration throws the
configuration error, yet the stored configuration is the merged record
with `sampleRate = 1.5`, not the prior one — the rejected update is
retained. -/
theorem setConfig_rejected_update_mutates_config :
    (setConfig defaultConfig { sampleRate := some (3 / 2) }).2.isSome = true ∧
    (setConfig defaultConfig { sampleRate := some (3 / 2) }).1 ≠ defaultConfig ∧
    (setConfig defaultConfig { sampleRate := some (3 / 2) }).1.sampleRate = 3 / 2 := by
  refine ⟨?_, ?_, ?_⟩ <;>
    norm_num [setConfig, mergeConfig, defaultConfig, GenAIConfig.mk.injEq]

/-- C2: the claim says every reachable configuration satisfies
`sampleRate ∈ [0,1]` and `maxAttributeLength ≥ 100`.  The code violates
it: one rejected `setConfig` call reaches a state with `sampleRate = 3/2
> 1`, because the merge happens before validation and is not rolled
back. -/
theorem config_invariant_violated_by_rejected_setConfig :
    ∃ c : GenAIConfig, ReachableConfig c ∧ c.sampleRate > 1 := by
  refine ⟨(setConfig defaultConfig { sampleRate := some (3 / 2) }).1,
    ReachableConfig.step _ _ ReachableConfig.init, ?_⟩
  norm_num [setConfig, mergeConfig, defaultConfig]

/-! ## Cost calculator claims -/

/-- C6: `calculateCost("openai", "gpt-4-turbo", 1000, 500)` returns
exactly `0.025`, and in general for a matched pricing entry
`calculateCost` returns `inputTokens/1e6 * inputPrice + outputTokens/1e6
* outputPrice` rounded to 8 decimal places. -/
theorem calculateCost_formula_and_gpt4turbo_value (c : CostCalculator)
    (provider model : String) (inputTokens outputTokens : ℚ) (p : ModelPricing)
    (h : c.lookupModelPricing provider model = some p) :
    CostCalculator.new.calculateCost "openai" "gpt-4-turbo" 1000 500 = 0.025 ∧
    c.calculateCost provider model inputTokens outputTokens =
      round8 (inputTokens / 1000000 * p.input + outputTokens / 1000000 * p.output) := by
  constructor
  · simp +decide [CostCalculator.calculateCost, CostCalculator.lookupModelPricing,
      CostCalculator.new, PRICING_TABLE, jsRecordGet, jsToLower, jsTrim, normalizeModelName,
      round8, round_eq]
    norm_num
  · simp [CostCalculator.calculateCost, h]

/-- Witness for C6, at the matched entry of `gpt-4-turbo`. -/
theorem calculateCost_formula_and_gpt4turbo_value_witness :
    CostCalculator.new.lookupModelPricing "openai" "gpt-4-turbo" = some ⟨10.0, 30.0⟩ ∧
    CostCalculator.new.calculateCost "openai" "gpt-4-turbo" 1000 500 =
      round8 ((1000 : ℚ) / 1000000 * 10.0 + (500 : ℚ) / 1000000 * 30.0) := by
  have h : CostCalculator.new.lookupModelPricing "openai" "gpt-4-turbo" =
      some ⟨10.0, 30.0⟩ := by
    simp +decide [CostCalculator.lookupModelPricing, CostCalculator.new, PRICING_TABLE,
      jsRecordGet, jsToLower, jsTrim, normalizeModelName]
  exact ⟨h, (calculateCost_formula_and_gpt4turbo_value _ _ _ _ _ _ h).2⟩

/-- C7: when the provider table exists but the normalized model name has
no exact entry, `calculateCost` uses the first entry in table iteration
order whose key substring-matches the queried name in either direction,
and returns `0` when no entry matches; concretely,
`calculateCost("openai", "unknown-model", 100, 0) = 0` and
`"gpt-4-0613"` falls back to the `gpt-4` entry. -/
theorem calculateCost_substring_fallback_first_match (c : CostCalculator)
    (provider model : String) (inputTokens outputTokens : ℚ) (table : ProviderPricing)
    (hprov : jsRecordGet c.pricing (jsToLower provider) = some table)
    (hexact : jsRecordGet table (normalizeModelName model) = none) :
    (c.calculateCost provider model inputTokens outputTokens =
      match table.find? (fun kv => jsIncludes kv.1 (normalizeModelName model) ||
          jsIncludes (normalizeModelName model) kv.1) with
      | some kv =>
          round8 (inputTokens / 1000000 * kv.2.input + outputTokens / 1000000 * kv.2.output)
      | none => 0) ∧
    CostCalculator.new.calculateCost "openai" "unknown-model" 100 0 = 0 ∧
    CostCalculator.new.calculateCost "openai" "gpt-4-0613" 1000000 0 = 30 := by
  refine ⟨?_, ?_, ?_⟩
  · simp only [CostCalculator.calculateCost, CostCalculator.lookupModelPricing,
      hprov, hexact]
    cases hfind : table.find? (fun kv => jsIncludes kv.1 (normalizeModelName model) ||
        jsIncludes (normalizeModelName model) kv.1) <;> simp [hfind]
  · simp +decide [CostCalculator.calculateCost, CostCalculator.lookupModelPricing,
      CostCalculator.new, PRICING_TABLE, jsRecordGet, jsToLower, jsTrim, normalizeModelName,
      jsIncludes]
  · simp +decide [CostCalculator.calculateCost, CostCalculator.lookupModelPricing,
      CostCalculator.new, PRICING_TABLE, jsRecordGet, jsToLower, jsTrim, normalizeModelName,
      jsIncludes, round8, round_eq]
    norm_num

/-- Witness for C7, with the openai table and an unmatched model name. -/
theorem calculateCost_substring_fallback_first_match_witness :
    jsRecordGet CostCalculator.new.pricing (jsToLower "openai") =
      some (PRICING_TABLE.headD ("", [])).2 ∧
    CostCalculator.new.calculateCost "openai" "unknown-model" 100 0 = 0 := by
  have hprov : jsRecordGet CostCalculator.new.pricing (jsToLower "openai") =
      some (PRICING_TABLE.headD ("", [])).2 := by
    simp +decide [CostCalculator.new, PRICING_TABLE, jsRecordGet, jsToLower]
  have hexact : jsRecordGet (PRICING_TABLE.headD ("", [])).2
      (normalizeModelName "unknown-model") = none := by
    simp +decide [PRICING_TABLE, jsRecordGet, normalizeModelName, jsToLower, jsTrim]
  exact ⟨hprov,
    (calculateCost_substring_fallback_first_match _ _ _ 100 0 _ hprov hexact).2.1⟩

/-- C4 counterexample: the claim says a `calculateCost` query matching a
registered custom model name under trim + lower-case normalization
returns the custom cost.  Registering `"My-Model"` for provider
`"myprov"` at 100 USD per million input tokens and querying the
normalization-equivalent `"my-model"` returns `0`, not the custom 100:
`addCustomPricing` stores the key unnormalized, the exact lookup
normalizes only the query, and the substring fallback compares
case-sensitively. -/
theorem addCustomPricing_unnormalized_key_unreachable :
    (CostCalculator.new.addCustomPricing "myprov" "My-Model" 100 0).calculateCost
        "myprov" "my-model" 1000000 0 = 0 ∧
    normalizeModelName "my-model" = normalizeModelName "My-Model" ∧
    round8 ((1000000 : ℚ) / 1000000 * 100 + (0 : ℚ) / 1000000 * 0) ≠ 0 := by
  refine ⟨?_, by rfl, ?_⟩
  · simp +decide [CostCalculator.calculateCost, CostCalculator.lookupModelPricing,
      CostCalculator.addCustomPricing, CostCalculator.new, PRICING_TABLE,
      jsRecordGet, jsRecordSet, jsToLower, jsTrim, normalizeModelName, jsIncludes]
  · norm_num [round8, round_eq]

/-- C4 (amended): after `addCustomPricing(provider, model, in, out)`, a
`calculateCost` call whose provider matches case-insensitively and whose
queried model name normalizes (trim + lower-case) to exactly the
registered model string returns the cost computed from the custom
prices, overriding any built-in entry or substring fallback match. -/
theorem addCustomPricing_normalized_key_overrides (c : CostCalculator)
    (provider model provider' model' : String) (inP outP i o : ℚ)
    (hprov : jsToLower provider' = jsToLower provider)
    (hmodel : normalizeModelName model' = model) :
    (c.addCustomPricing provider model inP outP).calculateCost provider' model' i o =
      round8 (i / 1000000 * inP + o / 1000000 * outP) := by
  simp only [CostCalculator.calculateCost, CostCalculator.lookupModelPricing,
    CostCalculator.addCustomPricing, hprov, hmodel, jsRecordGet_set_same]

/-- Witness for C4: a normalized registered key, queried with different
provider case and an untrimmed upper-case model name. -/
theorem addCustomPricing_normalized_key_overrides_witness :
    (CostCalculator.new.addCustomPricing "MyProv" "my-model" 100 0).calculateCost
        "myprov" " MY-MODEL " 1000000 0 =
      round8 ((1000000 : ℚ) / 1000000 * 100 + (0 : ℚ) / 1000000 * 0) :=
  addCustomPricing_normalized_key_overrides _ _ _ _ _ _ _ _ _ (by rfl) (by rfl)

/-! ## Redaction claims -/

/-- C5 counterexample: the claim says that after
`addRedactionPattern(name, pattern, replacement)`, every redaction call
whose active list includes `name` applies the pattern.  Registering
under the name `"Secret"` and redacting with active list `["Secret"]`
leaves the text unchanged: the lookup normalizes the active-list entry
to `"secret"`, which does not match the unnormalized stored key, so the
pattern (which would have rewritten the text to `"[S]"`) is never
applied. -/
theorem addRedactionPattern_unnormalized_name_ignored :
    redactSensitiveData
        (addRedactionPattern ⟨[], []⟩ "Secret" (literalRegExp "hunter2") "[S]")
        "hunter2" { defaultConfig with redactPatterns := ["Secret"] } = "hunter2" ∧
    (literalRegExp "hunter2").replaceIn "hunter2" "[S]" = "[S]" ∧
    ("hunter2" : String) ≠ "[S]" := by
  refine ⟨?_, ?_, by decide⟩
  · simp +decide [redactSensitiveData, applyPattern, addRedactionPattern,
      jsRecordSet, jsRecordGet, jsTrim, jsToLower]
  · simp +decide [literalRegExp, replaceAllLit]

/-- C5 (amended): after `addRedactionPattern(name, pattern,
replacement)` with `name` already in normalized (trimmed, lower-case)
form and a non-empty replacement, every subsequent redaction call whose
active list contains `name` applies the registered pattern with the
given replacement at that position of the sequential fold; and the
registration does not change the result of any call none of whose
active-list entries normalizes to `name`. -/
theorem addRedactionPattern_effect_and_isolation :
    (∀ (reg : RedactionRegistry) (name : String) (pat : JsRegExp) (repl : String)
        (cfg : GenAIConfig) (text : String) (l1 l2 : List String),
      jsToLower (jsTrim name) = name → repl ≠ "" →
      cfg.redactPatterns = l1 ++ name :: l2 →
      redactSensitiveData (addRedactionPattern reg name pat repl) text cfg =
        redactSensitiveData (addRedactionPattern reg name pat repl)
          (pat.replaceIn
            (redactSensitiveData (addRedactionPattern reg name pat repl) text
              { cfg with redactPatterns := l1 })
            repl)
          { cfg with redactPatterns := l2 }) ∧
    (∀ (reg : RedactionRegistry) (name : String) (pat : JsRegExp) (repl : String)
        (cfg : GenAIConfig) (text : String),
      (∀ x ∈ cfg.redactPatterns, jsToLower (jsTrim x) ≠ name) →
      redactSensitiveData (addRedactionPattern reg name pat repl) text cfg =
        redactSensitiveData reg text cfg) := by
  constructor
  · intro reg name pat repl cfg text l1 l2 hname hrepl hlist
    have hstep : ∀ acc : String,
        applyPattern (addRedactionPattern reg name pat repl) acc name =
          pat.replaceIn acc repl := by
      intro acc
      simp [applyPattern, addRedactionPattern, hname, jsRecordGet_set_same, hrepl]
    simp only [redactSensitiveData, hlist, List.foldl_append, List.foldl_cons, hstep]
  · intro reg name pat repl cfg text hnone
    simp only [redactSensitiveData]
    refine foldl_congr_mem _ _ _ (fun b hb a => ?_) text
    have hb' := hnone b hb
    simp [applyPattern, addRedactionPattern, jsRecordGet_set_ne _ _ _ _ hb']

/-- Witness for C5: a normalized registered name takes effect in a call
that activates it, and leaves a call with a different active list
untouched. -/
theorem addRedactionPattern_effect_and_isolation_witness :
    redactSensitiveData
        (addRedactionPattern ⟨[], []⟩ "secret" (literalRegExp "hunter2") "[S]")
        "hunter2" { defaultConfig with redactPatterns := ["secret"] } =
      redactSensitiveData
        (addRedactionPattern ⟨[], []⟩ "secret" (literalRegExp "hunter2") "[S]")
        ((literalRegExp "hunter2").replaceIn
          (redactSensitiveData
            (addRedactionPattern ⟨[], []⟩ "secret" (literalRegExp "hunter2") "[S]")
            "hunter2" { defaultConfig with redactPatterns := ([] : List String) })
          "[S]")
        { defaultConfig with redactPatterns := ([] : List String) } ∧
    redactSensitiveData
        (addRedactionPattern ⟨[], []⟩ "secret" (literalRegExp "hunter2") "[S]")
        "plain text" { defaultConfig with redactPatterns := ["other"] } =
      redactSensitiveData ⟨[], []⟩ "plain text"
        { defaultConfig with redactPatterns := ["other"] } := by
  constructor
  · exact addRedactionPattern_effect_and_isolation.1 ⟨[], []⟩ "secret"
      (literalRegExp "hunter2") "[S]"
      { defaultConfig with redactPatterns := ["secret"] } "hunter2" [] []
      (by decide) (by decide) rfl
  · exact addRedactionPattern_effect_and_isolation.2 ⟨[], []⟩ "secret"
      (literalRegExp "hunter2") "[S]"
      { defaultConfig with redactPatterns := ["other"] } "plain text"
      (by simp +decide [jsTrim, jsToLower])

/-- C8: redaction is a sequential left fold over the active pattern-name
list — `redact(text, l1 ++ l2) = redact(redact(text, l1), l2)` for every
registry, text and lists — and the result is order-sensitive: with two
overlapping synthetic patterns (`p1` rewriting `ab` to `X`, `p2`
rewriting `bc` to `Y`), the text `"abc"` redacts to `"Xc"` in one order
and `"aY"` in the other. -/
theorem redact_sequential_fold_order_sensitivity :
    (∀ (reg : RedactionRegistry) (cfg : GenAIConfig) (text : String) (l1 l2 : List String),
      redactSensitiveData reg text { cfg with redactPatterns := l1 ++ l2 } =
        redactSensitiveData reg
          (redactSensitiveData reg text { cfg with redactPatterns := l1 })
          { cfg with redactPatterns := l2 }) ∧
    redactSensitiveData
        ⟨[("p1", literalRegExp "ab"), ("p2", literalRegExp "bc")],
         [("p1", "X"), ("p2", "Y")]⟩
        "abc" { defaultConfig with redactPatterns := ["p1", "p2"] } = "Xc" ∧
    redactSensitiveData
        ⟨[("p1", literalRegExp "ab"), ("p2", literalRegExp "bc")],
         [("p1", "X"), ("p2", "Y")]⟩
        "abc" { defaultConfig with redactPatterns := ["p2", "p1"] } = "aY" ∧
    ("Xc" : String) ≠ "aY" := by
  refine ⟨?_, ?_, ?_, by decide⟩
  · intro reg cfg text l1 l2
    simp [redactSensitiveData, List.foldl_append]
  · simp +decide [redactSensitiveData, applyPattern, literalRegExp, jsRecordGet,
      jsTrim, jsToLower, replaceAllLit]
  · simp +decide [redactSensitiveData, applyPattern, literalRegExp, jsRecordGet,
      jsTrim, jsToLower, replaceAllLit]

/-! ## Span lifecycle claims -/

/-- C3: for every operation kind and wrapped callable outcome, the
instrumented call propagates the outcome unchanged (it fails exactly
when the wrapped callable fails, with the identical error value), the
span is ended exactly once on every exit path, and on failure the span
carries status error and the attributes `error = true`, `error.type`
(the error's constructor name) and `error.message` truncated to 200
characters. -/
theorem instrumented_call_error_propagation :
    (∀ (cfg : GenAIConfig) (cc : CostCalculator) (opts : EmbedOptions) (d : ℚ)
        (out : Except JsError EmbedResult),
      (traceEmbed cfg cc opts d out).1 = out ∧
      (traceEmbed cfg cc opts d out).2.endCount = 1 ∧
      ∀ e : JsError, out = .error e →
        (traceEmbed cfg cc opts d out).2.status = .error e.message ∧
        ("error", .bool true) ∈ (traceEmbed cfg cc opts d out).2.attrs ∧
        ("error.type", .str e.type) ∈ (traceEmbed cfg cc opts d out).2.attrs ∧
        ("error.message", .str (jsSubstringTo e.message 200)) ∈
          (traceEmbed cfg cc opts d out).2.attrs) ∧
    (∀ (cfg : GenAIConfig) (opts : RetrieveOptions) (d : ℚ)
        (out : Except JsError RetrieveResult),
      (traceRetrieve cfg opts d out).1 = out ∧
      (traceRetrieve cfg opts d out).2.endCount = 1 ∧
      ∀ e : JsError, out = .error e →
        (traceRetrieve cfg opts d out).2.status = .error e.message ∧
        ("error", .bool true) ∈ (traceRetrieve cfg opts d out).2.attrs ∧
        ("error.type", .str e.type) ∈ (traceRetrieve cfg opts d out).2.attrs ∧
        ("error.message", .str (jsSubstringTo e.message 200)) ∈
          (traceRetrieve cfg opts d out).2.attrs) ∧
    (∀ (cfg : GenAIConfig) (opts : RerankOptions) (d : ℚ)
        (out : Except JsError RerankResult),
      (traceRerank cfg opts d out).1 = out ∧
      (traceRerank cfg opts d out).2.endCount = 1 ∧
      ∀ e : JsError, out = .error e →
        (traceRerank cfg opts d out).2.status = .error e.message ∧
        ("error", .bool true) ∈ (traceRerank cfg opts d out).2.attrs ∧
        ("error.type", .str e.type) ∈ (traceRerank cfg opts d out).2.attrs ∧
        ("error.message", .str (jsSubstringTo e.message 200)) ∈
          (traceRerank cfg opts d out).2.attrs) ∧
    (∀ (cfg : GenAIConfig) (reg : RedactionRegistry) (cc : CostCalculator)
        (opts : GenerateOptions) (args : List String) (d : ℚ)
        (out : Except JsError GenerateResult),
      (traceGenerate cfg reg cc opts args d out).1 = out ∧
      (traceGenerate cfg reg cc opts args d out).2.endCount = 1 ∧
      ∀ e : JsError, out = .error e →
        (traceGenerate cfg reg cc opts args d out).2.status = .error e.message ∧
        ("error", .bool true) ∈ (traceGenerate cfg reg cc opts args d out).2.attrs ∧
        ("error.type", .str e.type) ∈ (traceGenerate cfg reg cc opts args d out).2.attrs ∧
        ("error.message", .str (jsSubstringTo e.message 200)) ∈
          (traceGenerate cfg reg cc opts args d out).2.attrs) ∧
    (∀ (cfg : GenAIConfig) (reg : RedactionRegistry) (opts : ToolCallOptions) (d : ℚ)
        (out : Except JsError ToolCallResult),
      (traceToolCall cfg reg opts d out).1 = out ∧
      (traceToolCall cfg reg opts d out).2.endCount = 1 ∧
      ∀ e : JsError, out = .error e →
        (traceToolCall cfg reg opts d out).2.status = .error e.message ∧
        ("error", .bool true) ∈ (traceToolCall cfg reg opts d out).2.attrs ∧
        ("error.type", .str e.type) ∈ (traceToolCall cfg reg opts d out).2.attrs ∧
        ("error.message", .str (jsSubstringTo e.message 200)) ∈
          (traceToolCall cfg reg opts d out).2.attrs) := by
  refine ⟨?_, ?_, ?_, ?_, ?_⟩
  · intro cfg cc opts d out
    cases out <;> simp [traceEmbed, endSpan, errorAttrs]
  · intro cfg opts d out
    cases out <;> simp [traceRetrieve, endSpan, errorAttrs]
  · intro cfg opts d out
    cases out <;> simp [traceRerank, endSpan, errorAttrs]
  · intro cfg reg cc opts args d out
    cases out <;> simp [traceGenerate, endSpan, errorAttrs]
  · intro cfg reg opts d out
    cases out <;> simp [traceToolCall, endSpan, errorAttrs]

/-- Witness for C3: each wrapper at a concrete thrown error. -/
theorem instrumented_call_error_propagation_witness :
    (traceEmbed defaultConfig CostCalculator.new ⟨"m", none, none, none⟩ 5
        (.error ⟨"TypeError", "boom"⟩)).1 = .error ⟨"TypeError", "boom"⟩ ∧
    ("error.type", .str "TypeError") ∈
      (traceEmbed defaultConfig CostCalculator.new ⟨"m", none, none, none⟩ 5
        (.error ⟨"TypeError", "boom"⟩)).2.attrs ∧
    ("error.type", .str "TypeError") ∈
      (traceRetrieve defaultConfig ⟨"s", 3, none, none⟩ 5
        (.error ⟨"TypeError", "boom"⟩)).2.attrs ∧
    ("error.type", .str "TypeError") ∈
      (traceRerank defaultConfig ⟨"m", none, none, none⟩ 5
        (.error ⟨"TypeError", "boom"⟩)).2.attrs ∧
    ("error.type", .str "TypeError") ∈
      (traceGenerate defaultConfig ⟨[], []⟩ CostCalculator.new ⟨"m", none, none, none, none⟩
        ["hi"] 5 (.error ⟨"TypeError", "boom"⟩)).2.attrs ∧
    ("error.type", .str "TypeError") ∈
      (traceToolCall defaultConfig ⟨[], []⟩ ⟨"t", none⟩ 5
        (.error ⟨"TypeError", "boom"⟩)).2.attrs :=
  ⟨(instrumented_call_error_propagation.1 defaultConfig CostCalculator.new
      ⟨"m", none, none, none⟩ 5 (.error ⟨"TypeError", "boom"⟩)).1,
   ((instrumented_call_error_propagation.1 defaultConfig CostCalculator.new
      ⟨"m", none, none, none⟩ 5 (.error ⟨"TypeError", "boom"⟩)).2.2
      ⟨"TypeError", "boom"⟩ rfl).2.2.1,
   ((instrumented_call_error_propagation.2.1 defaultConfig ⟨"s", 3, none, none⟩ 5
      (.error ⟨"TypeError", "boom"⟩)).2.2 ⟨"TypeError", "boom"⟩ rfl).2.2.1,
   ((instrumented_call_error_propagation.2.2.1 defaultConfig ⟨"m", none, none, none⟩ 5
      (.error ⟨"TypeError", "boom"⟩)).2.2 ⟨"TypeError", "boom"⟩ rfl).2.2.1,
   ((instrumented_call_error_propagation.2.2.2.1 defaultConfig ⟨[], []⟩ CostCalculator.new
      ⟨"m", none, none, none, none⟩ ["hi"] 5 (.error ⟨"TypeError", "boom"⟩)).2.2
      ⟨"TypeError", "boom"⟩ rfl).2.2.1,
   ((instrumented_call_error_propagation.2.2.2.2 defaultConfig ⟨[], []⟩ ⟨"t", none⟩ 5
      (.error ⟨"TypeError", "boom"⟩)).2.2 ⟨"TypeError", "boom"⟩ rfl).2.2.1⟩

/-- C9: a successful instrumented generate call never carries
`gen_ai.prompt` or `gen_ai.completion` attributes when `logPrompts` is
disabled in the configuration read at call start; when it is enabled,
the prompt attribute is the first argument truncated to
`maxAttributeLength` and then redacted, and the completion attribute is
the result's message content truncated and redacted likewise. -/
theorem generate_prompt_logging_gated_by_logPrompts :
    (∀ (cfg : GenAIConfig) (reg : RedactionRegistry) (cc : CostCalculator)
        (opts : GenerateOptions) (args : List String) (d : ℚ) (r : GenerateResult),
      cfg.logPrompts = false →
      (∀ v : AttrValue,
        ("gen_ai.prompt", v) ∉ (traceGenerate cfg reg cc opts args d (.ok r)).2.attrs) ∧
      (∀ v : AttrValue,
        ("gen_ai.completion", v) ∉ (traceGenerate cfg reg cc opts args d (.ok r)).2.attrs)) ∧
    (∀ (cfg : GenAIConfig) (reg : RedactionRegistry) (cc : CostCalculator)
        (opts : GenerateOptions) (a : String) (rest : List String) (d : ℚ)
        (r : GenerateResult),
      cfg.logPrompts = true →
      ("gen_ai.prompt",
        .str (redactSensitiveData reg (jsSubstringTo a cfg.maxAttributeLength) cfg)) ∈
        (traceGenerate cfg reg cc opts (a :: rest) d (.ok r)).2.attrs) ∧
    (∀ (cfg : GenAIConfig) (reg : RedactionRegistry) (cc : CostCalculator)
        (opts : GenerateOptions) (args : List String) (d : ℚ) (r : GenerateResult)
        (content : String),
      cfg.logPrompts = true → r.message_content = some content → content ≠ "" →
      ("gen_ai.completion",
        .str (redactSensitiveData reg (jsSubstringTo content cfg.maxAttributeLength) cfg)) ∈
        (traceGenerate cfg reg cc opts args d (.ok r)).2.attrs) := by
  refine ⟨?_, ?_, ?_⟩
  · intro cfg reg cc opts args d r hlog
    constructor <;> intro v <;>
      · rcases r with ⟨u, f, m⟩
        cases u <;>
          simp [traceGenerate, endSpan, optAttr, hlog]
  · intro cfg reg cc opts a rest d r hlog
    rcases r with ⟨u, f, m⟩
    cases u <;>
      simp [traceGenerate, endSpan, optAttr, hlog]
  · intro cfg reg cc opts args d r content hlog hcontent hne
    rcases r with ⟨u, f, m⟩
    cases hcontent
    cases u <;>
      simp [traceGenerate, endSpan, optAttr, hlog, hne]

/-- Witness for C9: with `logPrompts` off nothing is attached; with it
on, prompt and completion attributes appear redacted and truncated. -/
theorem generate_prompt_logging_gated_by_logPrompts_witness :
    (∀ v : AttrValue, ("gen_ai.prompt", v) ∉
      (traceGenerate defaultConfig ⟨[], []⟩ CostCalculator.new
        ⟨"m", none, none, none, none⟩ ["hello"] 5 (.ok ⟨none, none, none⟩)).2.attrs) ∧
    ("gen_ai.prompt",
      .str (redactSensitiveData ⟨[], []⟩
        (jsSubstringTo "hello" { defaultConfig with logPrompts := true }.maxAttributeLength)
        { defaultConfig with logPrompts := true })) ∈
      (traceGenerate { defaultConfig with logPrompts := true } ⟨[], []⟩ CostCalculator.new
        ⟨"m", none, none, none, none⟩ ["hello"] 5 (.ok ⟨none, none, none⟩)).2.attrs ∧
    ("gen_ai.completion",
      .str (redactSensitiveData ⟨[], []⟩
        (jsSubstringTo "done" { defaultConfig with logPrompts := true }.maxAttributeLength)
        { defaultConfig with logPrompts := true })) ∈
      (traceGenerate { defaultConfig with logPrompts := true } ⟨[], []⟩ CostCalculator.new
        ⟨"m", none, none, none, none⟩ [] 5 (.ok ⟨none, none, some "done"⟩)).2.attrs :=
  ⟨(generate_prompt_logging_gated_by_logPrompts.1 defaultConfig ⟨[], []⟩ CostCalculator.new
      ⟨"m", none, none, none, none⟩ ["hello"] 5 ⟨none, none, none⟩ rfl).1,
   generate_prompt_logging_gated_by_logPrompts.2.1 { defaultConfig with logPrompts := true }
      ⟨[], []⟩ CostCalculator.new ⟨"m", none, none, none, none⟩ "hello" [] 5
      ⟨none, none, none⟩ rfl,
   generate_prompt_logging_gated_by_logPrompts.2.2 { defaultConfig with logPrompts := true }
      ⟨[], []⟩ CostCalculator.new ⟨"m", none, none, none, none⟩ [] 5
      ⟨none, none, some "done"⟩ "done" rfl rfl (by decide)⟩
